import Mathlib

/-!
Shallow embedding of the gologger repository (github.com/gath-stack/gologger):
a structured-logging facade over Uber zap, with strict configuration
validation, an environment-variable loader, and a global-singleton logger
lifecycle. The definitions below are translated from the Go source:
`errors.go`, `logger.go` (the logger package) and the `internal/config`
package (`config.go`).
-/

set_option autoImplicit false

namespace Gologger

/--
Model of a Go `error` value.  `errNew msg` models a sentinel created by
`errors.New(msg)` (identity is by distinct message, which is unique per
sentinel in this code base); `errno n` models a `syscall.Errno`;
`wrap pre w post` models `fmt.Errorf` with a single `%w` verb applied to `w`:
its message is `pre ++ w.message ++ post` and `errors.Unwrap` returns `w`.
Arguments formatted with `%v`/`%s` are rendered into `pre`/`post` as plain
text and are NOT part of the unwrap chain, exactly as in Go.
-/
inductive GoErr where
  | errNew (msg : String)
  | errno (n : Nat)
  | wrap (pre : String) (w : GoErr) (post : String)
deriving DecidableEq, Repr

/-- Rendered message of a Go error value (`err.Error()`). -/
def GoErr.message : GoErr → String
  | .errNew m => m
  | .errno n => "errno " ++ toString n
  | .wrap pre w post => pre ++ w.message ++ post

/--
Model of Go `errors.Is(e, target)`: `e` equals the target or the target
occurs somewhere along the `Unwrap` chain (the `%w` operand of each layer).
-/
def errorsIs : GoErr → GoErr → Bool
  | .errNew m, t => GoErr.errNew m == t
  | .errno n, t => GoErr.errno n == t
  | .wrap pre w post, t => (GoErr.wrap pre w post == t) || errorsIs w t

/-! Sentinel errors of the logger package, from `errors.go`. -/

/-- Sentinel `ErrNotInitialized` from `errors.go`. -/
def ErrNotInitialized : GoErr := .errNew "logger not initialized"

/-- Sentinel `ErrAlreadyInitialized` from `errors.go`. -/
def ErrAlreadyInitialized : GoErr := .errNew "logger already initialized"

/-- Sentinel `ErrInvalidConfig` from `errors.go`. -/
def ErrInvalidConfig : GoErr := .errNew "invalid logger configuration"

/-- Sentinel `ErrInvalidLogLevel` from `errors.go`. -/
def ErrInvalidLogLevel : GoErr := .errNew "invalid log level"

/-- Sentinel `ErrInvalidEnvironment` from `errors.go`. -/
def ErrInvalidEnvironment : GoErr := .errNew "invalid environment"

/-- Sentinel `ErrMissingServiceName` from `errors.go`. -/
def ErrMissingServiceName : GoErr := .errNew "service name is required"

/-- Sentinel `ErrSyncFailed` from `errors.go`. -/
def ErrSyncFailed : GoErr := .errNew "failed to sync logger"

/-! Sentinel errors of the internal config package. -/

/-- Sentinel `config.ErrMissingRequiredEnvVar`. -/
def ErrMissingRequiredEnvVar : GoErr :=
  .errNew "required environment variable is not set"

/-- Sentinel `config.ErrInvalidValue`. -/
def ErrInvalidValue : GoErr := .errNew "invalid configuration value"

/-- The `syscall.EINVAL` errno value (22 on Linux). -/
def EINVAL : GoErr := .errno 22

/-- The `syscall.ENOTTY` errno value (25 on Linux). -/
def ENOTTY : GoErr := .errno 25

/-- The `syscall.EBADF` errno value (9 on Linux). -/
def EBADF : GoErr := .errno 9

/-! String helpers mirroring the Go standard library calls used by the
source (`strings.TrimSpace`, `strings.ToUpper`, `strings.ToLower`).
The configuration values in this code base are ASCII, where the Lean
character maps agree with Go. -/

/-- Go `unicode.IsSpace` restricted to the ASCII white-space characters
recognised by `strings.TrimSpace` on ASCII input. -/
def goIsSpace (c : Char) : Bool :=
  c == ' ' || c == '\t' || c == '\n' ||
    c == Char.ofNat 11 || c == Char.ofNat 12 || c == '\r'

/-- Model of Go `strings.TrimSpace`. -/
def trimSpace (s : String) : String :=
  String.mk (((s.data.dropWhile goIsSpace).reverse.dropWhile goIsSpace).reverse)

/-- Model of Go `strings.ToUpper` (ASCII). -/
def toUpper (s : String) : String := String.mk (s.data.map Char.toUpper)

/-- Model of Go `strings.ToLower` (ASCII). -/
def toLower (s : String) : String := String.mk (s.data.map Char.toLower)

/-! The internal config package: enumerations, configuration value object,
environment loading.  Translated from `internal/config/config.go`. -/

/-- Go `type LogLevel string` from the config package. -/
abbrev LogLevel := String

/-- Constant `config.LogLevelDebug`. -/
def LogLevelDebug : LogLevel := "DEBUG"

/-- Constant `config.LogLevelInfo`. -/
def LogLevelInfo : LogLevel := "INFO"

/-- Constant `config.LogLevelWarn`. -/
def LogLevelWarn : LogLevel := "WARN"

/-- Constant `config.LogLevelError`. -/
def LogLevelError : LogLevel := "ERROR"

/-- Go `type Environment string` from the config package. -/
abbrev Environment := String

/-- Constant `config.EnvDevelopment`. -/
def EnvDevelopment : Environment := "development"

/-- Constant `config.EnvProduction`. -/
def EnvProduction : Environment := "production"

/-- Method `(l LogLevel) Validate() error` of the config package.
Returns `none` for nil error, `some e` for a non-nil error, as everywhere
below. -/
def LogLevel.Validate (l : LogLevel) : Option GoErr :=
  if l == LogLevelDebug || l == LogLevelInfo || l == LogLevelWarn ||
      l == LogLevelError then
    none
  else
    some (.wrap "" ErrInvalidValue
      (": log level must be DEBUG, INFO, WARN, or ERROR, got \x27" ++ l ++ "\x27"))

/-- Method `(e Environment) Validate() error` of the config package. -/
def Environment.Validate (e : Environment) : Option GoErr :=
  if e == EnvDevelopment || e == EnvProduction then
    none
  else
    some (.wrap "" ErrInvalidValue
      (": environment must be \x27development\x27 or \x27production\x27, got \x27" ++ e ++ "\x27"))

/-- Struct `config.LoggerConfig`. -/
structure LoggerConfig where
  Level : LogLevel
  Environment : Environment
  ServiceName : String
deriving DecidableEq, Repr

/-- Method `(c LoggerConfig) Validate() error` of the config package:
level, then environment, then trimmed service name, short-circuiting. -/
def LoggerConfig.Validate (c : LoggerConfig) : Option GoErr :=
  match LogLevel.Validate c.Level with
  | some err => some err
  | none =>
    match Environment.Validate c.Environment with
    | some err => some err
    | none =>
      if trimSpace c.ServiceName == "" then
        some (.wrap "" ErrInvalidValue ": service name is required and cannot be empty")
      else
        none

/-- Struct `config.Config` (the application-wide configuration holder). -/
structure Config where
  Logger : LoggerConfig
deriving DecidableEq, Repr

/-- Method `(c Config) Validate() error` of the config package. -/
def Config.Validate (c : Config) : Option GoErr :=
  match c.Logger.Validate with
  | some err => some (.wrap "logger configuration error: " err "")
  | none => none

/-- Model of the process environment: `none` for an unset variable,
`some v` for a set one.  Go `os.Getenv` collapses unset to `""`
(see `getenv`); godotenv distinguishes the two via `os.LookupEnv`. -/
abbrev Env := String → Option String

/-- Model of Go `os.Getenv`. -/
def getenv (env : Env) (k : String) : String := (env k).getD ""

/-- Function `config.loadLoggerConfig`: reads the three mandatory
variables in order, normalizes, assembles and validates. -/
def loadLoggerConfig (env : Env) : Except GoErr LoggerConfig :=
  let logLevel := getenv env "LOG_LEVEL"
  if logLevel == "" then
    .error (.wrap "" ErrMissingRequiredEnvVar ": LOG_LEVEL")
  else
    let appEnv := getenv env "APP_ENV"
    if appEnv == "" then
      .error (.wrap "" ErrMissingRequiredEnvVar ": APP_ENV")
    else
      let appName := getenv env "APP_NAME"
      if appName == "" then
        .error (.wrap "" ErrMissingRequiredEnvVar ": APP_NAME")
      else
        let cfg : LoggerConfig :=
          { Level := toUpper logLevel
            Environment := toLower appEnv
            ServiceName := appName }
        match cfg.Validate with
        | some err => .error err
        | none => .ok cfg

/-- Model of the optional `.env` file collaborator: `none` when the file
is absent, `some kvs` for its parsed key/value pairs. -/
abbrev DotenvFile := Option (List (String × String))

/-- First value bound to key `k` in the parsed file. -/
def dotenvLookup (kvs : List (String × String)) (k : String) : Option String :=
  match kvs.find? (fun p => p.1 == k) with
  | some p => some p.2
  | none => none

/-- Effect of `godotenv.Load` on the process environment: variables that
are already set are never overridden; unset variables are supplied from
the file. -/
def godotenvApply (env : Env) (kvs : List (String × String)) : Env :=
  fun k =>
    match env k with
    | some v => some v
    | none => dotenvLookup kvs k

/-- The not-found error `godotenv.Load` produces for an absent `.env`
file (an `os.Open` path error). -/
def ErrEnvFileNotFound : GoErr := .errNew "open .env: no such file or directory"

/-- Model of `godotenv.Load()`: fails when the file is absent, otherwise
supplements the process environment.  Parse failures are not modelled
because the file is represented already parsed. -/
def godotenvLoad (env : Env) (file : DotenvFile) : Except GoErr Env :=
  match file with
  | none => .error ErrEnvFileNotFound
  | some kvs => .ok (godotenvApply env kvs)

/-- Function `config.loadEnvFile`: reads the raw `APP_ENV` value first;
if it equals "production" case-insensitively the file is never consulted;
otherwise the file is loaded, and its absence is not an error. -/
def loadEnvFile (env : Env) (file : DotenvFile) : Except GoErr Env :=
  if toLower (getenv env "APP_ENV") == "production" then
    .ok env
  else
    match godotenvLoad env file with
    | .error e =>
      if e == ErrEnvFileNotFound then
        .ok env
      else
        .error (.wrap "error loading .env file: " e "")
    | .ok env2 => .ok env2

/-- Function `config.Load`: optionally supplement the environment from
the `.env` file, load the logger configuration, validate the whole
configuration. -/
def Load (env : Env) (file : DotenvFile) : Except GoErr Config :=
  match loadEnvFile env file with
  | .error e => .error e
  | .ok env2 =>
    match loadLoggerConfig env2 with
    | .error e => .error e
    | .ok loggerCfg =>
      let cfg : Config := { Logger := loggerCfg }
      match cfg.Validate with
      | some e => .error e
      | none => .ok cfg

/-! The logger package: logger construction, configuration validation,
the global-singleton lifecycle, and Sync.  Translated from `logger.go`. -/

/-- A zap severity level (`zapcore.Level`). -/
inductive ZapLevel where
  | debug
  | info
  | warn
  | error
deriving DecidableEq, Repr

/-- The `zapcore.EncoderConfig` fields set by `buildLogger`.  Encoder
functions are represented by descriptive tags; `zapcore.OmitKey` is `""`. -/
structure EncoderConfig where
  TimeKey : String
  LevelKey : String
  NameKey : String
  CallerKey : String
  FunctionKey : String
  MessageKey : String
  StacktraceKey : String
  LineEnding : String
  EncodeLevel : String
  EncodeTime : String
  EncodeDuration : String
  EncodeCaller : String
deriving DecidableEq, Repr

/-- The core built by `zapcore.NewCore(encoder, sink, level)`. -/
structure ZapCore where
  encoder : String
  encoderConfig : EncoderConfig
  sink : String
  level : ZapLevel
deriving DecidableEq, Repr

/-- A `zap.Logger` as configured by `buildLogger`: the core, the options
passed to `zap.New`, and the permanently attached fields. -/
structure ZapLogger where
  core : ZapCore
  addCaller : Bool
  callerSkip : Nat
  stacktraceLevel : ZapLevel
  fields : List (String × String)
deriving DecidableEq, Repr

/-- Struct `Logger` of the logger package, wrapping a zap logger. -/
structure Logger where
  logger : ZapLogger
deriving DecidableEq, Repr

/-- The level switch at the top of `buildLogger`: map the configuration
log level to the zap level, with the default case returning the wrapped
`ErrInvalidLogLevel` construction error. -/
def buildLoggerLevel (l : LogLevel) : Except GoErr ZapLevel :=
  if l == LogLevelDebug then .ok .debug
  else if l == LogLevelInfo then .ok .info
  else if l == LogLevelWarn then .ok .warn
  else if l == LogLevelError then .ok .error
  else .error (.wrap "" ErrInvalidLogLevel (": " ++ l))

/-- Function `buildLogger` of the logger package: parse the level, build
the encoder configuration, select the encoder by environment (production
keeps the lowercase level encoder and JSON; anything else switches to the
capital color level encoder and the console encoder), create the core on
stdout, and attach the single permanent `service` field. -/
def buildLogger (cfg : LoggerConfig) : Except GoErr ZapLogger :=
  match buildLoggerLevel cfg.Level with
  | .error e => .error e
  | .ok level =>
    let encoderConfig : EncoderConfig :=
      { TimeKey := "timestamp"
        LevelKey := "level"
        NameKey := "logger"
        CallerKey := "caller"
        FunctionKey := ""
        MessageKey := "message"
        StacktraceKey := "stacktrace"
        LineEnding := "\n"
        EncodeLevel := "lowercase"
        EncodeTime := "iso8601"
        EncodeDuration := "seconds"
        EncodeCaller := "short" }
    let chosen : String × EncoderConfig :=
      if cfg.Environment == EnvProduction then
        ("json", encoderConfig)
      else
        ("console", { encoderConfig with EncodeLevel := "capitalColor" })
    let core : ZapCore :=
      { encoder := chosen.1
        encoderConfig := chosen.2
        sink := "stdout"
        level := level }
    .ok
      { core := core
        addCaller := true
        callerSkip := 1
        stacktraceLevel := .error
        fields := [("service", cfg.ServiceName)] }

/-- Function `validateConfig` of the logger package: level, then
environment, then trimmed service name; the first two failures are
wrapped (with `%w`) in the logger sentinels, the inner cause rendered as
text only (`%v`). -/
def validateConfig (cfg : LoggerConfig) : Option GoErr :=
  match LogLevel.Validate cfg.Level with
  | some err => some (.wrap "" ErrInvalidLogLevel (": " ++ err.message))
  | none =>
    match Environment.Validate cfg.Environment with
    | some err => some (.wrap "" ErrInvalidEnvironment (": " ++ err.message))
    | none =>
      if trimSpace cfg.ServiceName == "" then
        some ErrMissingServiceName
      else
        none

/-- The process-wide `globalLogger` cell guarded by `mu`: `none` is the
uninitialized state. -/
abbrev GlobalState := Option Logger

/-- Function `InitGlobal` of the logger package, as a transition on the
global state.  The Go function holds the exclusive lock `mu` for its whole
body, so a call is a single atomic step: check, validate, build, store. -/
def InitGlobal (cfg : LoggerConfig) (s : GlobalState) : Option GoErr × GlobalState :=
  match s with
  | some _ => (some ErrAlreadyInitialized, s)
  | none =>
    match validateConfig cfg with
    | some err => (some (.wrap "" ErrInvalidConfig (": " ++ err.message)), none)
    | none =>
      match buildLogger cfg with
      | .error err => (some (.wrap "failed to build logger: " err ""), none)
      | .ok zapLogger => (none, some { logger := zapLogger })

/-- Outcome of `Get`: either the stored handle, or the panic it raises
(with its payload) when the global logger is absent. -/
inductive GetResult where
  | panicked (payload : GoErr)
  | ok (l : Logger)
deriving DecidableEq, Repr

/-- Function `Get` of the logger package: panics with `ErrNotInitialized`
when uninitialized, otherwise returns the stored handle. -/
def Get (s : GlobalState) : GetResult :=
  match s with
  | none => .panicked ErrNotInitialized
  | some l => .ok l

/-- Function `TryGet` of the logger package: returns the Go pair
`(*Logger, error)` — `(nil, ErrNotInitialized)` when uninitialized,
`(handle, nil)` otherwise.  Its result type has no panic alternative. -/
def TryGet (s : GlobalState) : Option Logger × Option GoErr :=
  match s with
  | none => (none, some ErrNotInitialized)
  | some l => (some l, none)

/-- Function `ReplaceGlobal` of the logger package: unconditionally
overwrites the stored handle (the Go parameter is a possibly-nil
pointer). -/
def ReplaceGlobal (newLogger : Option Logger) (_s : GlobalState) : GlobalState :=
  newLogger

/-- Function `isIgnorableSyncError` of the logger package. -/
def isIgnorableSyncError (err : GoErr) : Bool :=
  errorsIs err EINVAL || errorsIs err ENOTTY || errorsIs err EBADF

/-- Method `(l *Logger) Sync() error` of the logger package.
`zapSyncResult` is the outcome of the underlying `zap.Logger.Sync()`
flush, an effect of the external logging engine: `none` for success,
`some e` for failure with cause `e`. -/
def Logger.Sync (_l : Logger) (zapSyncResult : Option GoErr) : Option GoErr :=
  match zapSyncResult with
  | none => none
  | some err =>
    if !isIgnorableSyncError err then
      some (.wrap "" ErrSyncFailed (": " ++ err.message))
    else
      none

/-- Sequential composition of `InitGlobal` calls: the list of per-call
results together with the final global state.  Because `InitGlobal` holds
`mu` for its whole body, every concurrent schedule of calls executes as
some sequential order of atomic calls, i.e. as `runInits` on some
permutation of the configurations. -/
def runInits (cfgs : List LoggerConfig) (s : GlobalState) :
    List (Option GoErr) × GlobalState :=
  match cfgs with
  | [] => ([], s)
  | cfg :: rest =>
    let step := InitGlobal cfg s
    let next := runInits rest step.2
    (step.1 :: next.1, next.2)

/-! Helper lemmas shared by the claim theorems. -/

/-- A `wrap` node is never `==` to an `errNew` sentinel. -/
theorem wrap_beq_errNew (pre post : String) (w : GoErr) (m : String) :
    (GoErr.wrap pre w post == GoErr.errNew m) = false := by
  simp

/-- Unfolding of `errorsIs` on a `wrap` node. -/
theorem errorsIs_wrap (pre post : String) (w t : GoErr) :
    errorsIs (GoErr.wrap pre w post) t
      = ((GoErr.wrap pre w post == t) || errorsIs w t) := rfl

/-- Chain membership through one wrapping layer targeting a sentinel:
only the wrapped operand matters. -/
theorem errorsIs_wrap_errNew (pre post : String) (w : GoErr) (m : String) :
    errorsIs (GoErr.wrap pre w post) (GoErr.errNew m) = errorsIs w (GoErr.errNew m) := by
  rw [errorsIs_wrap, wrap_beq_errNew, Bool.false_or]

/-- Characterisation of a successful log-level validation. -/
theorem logLevel_validate_eq_none_iff (l : LogLevel) :
    LogLevel.Validate l = none ↔
      l = LogLevelDebug ∨ l = LogLevelInfo ∨ l = LogLevelWarn ∨ l = LogLevelError := by
  constructor
  · intro h
    by_contra hc
    push_neg at hc
    obtain ⟨h1, h2, h3, h4⟩ := hc
    simp [LogLevel.Validate, h1, h2, h3, h4] at h
  · intro h
    rcases h with h | h | h | h <;> simp [LogLevel.Validate, h]

/-- Characterisation of a successful environment validation. -/
theorem environment_validate_eq_none_iff (e : Environment) :
    Environment.Validate e = none ↔ e = EnvDevelopment ∨ e = EnvProduction := by
  constructor
  · intro h
    by_contra hc
    push_neg at hc
    obtain ⟨h1, h2⟩ := hc
    simp [Environment.Validate, h1, h2] at h
  · intro h
    rcases h with h | h <;> simp [Environment.Validate, h]

/-- Characterisation of a successful `validateConfig`. -/
theorem validateConfig_eq_none_iff (cfg : LoggerConfig) :
    validateConfig cfg = none ↔
      LogLevel.Validate cfg.Level = none ∧
      Environment.Validate cfg.Environment = none ∧
      trimSpace cfg.ServiceName ≠ "" := by
  unfold validateConfig
  rcases hl : LogLevel.Validate cfg.Level with _ | e
  · rcases he : Environment.Validate cfg.Environment with _ | e2
    · by_cases hs : trimSpace cfg.ServiceName = ""
      · simp [hs]
      · simp [hs]
    · simp [he]
  · simp [hl]

/-- Claim C2: validateConfig checks level, then environment, then the
trimmed service name, short-circuiting on the first failure; each failing
branch yields exactly one of the three error kinds (`ErrInvalidLogLevel`,
`ErrInvalidEnvironment`, `ErrMissingServiceName`, tested through the
`errors.Is` chain), and when all three checks pass it returns nil. -/
theorem claim2_validateConfig_order (cfg : LoggerConfig) :
    (∀ e, LogLevel.Validate cfg.Level = some e →
      validateConfig cfg = some (GoErr.wrap "" ErrInvalidLogLevel (": " ++ e.message)) ∧
      errorsIs (GoErr.wrap "" ErrInvalidLogLevel (": " ++ e.message)) ErrInvalidLogLevel = true ∧
      errorsIs (GoErr.wrap "" ErrInvalidLogLevel (": " ++ e.message)) ErrInvalidEnvironment = false ∧
      errorsIs (GoErr.wrap "" ErrInvalidLogLevel (": " ++ e.message)) ErrMissingServiceName = false) ∧
    (∀ e, LogLevel.Validate cfg.Level = none →
      Environment.Validate cfg.Environment = some e →
      validateConfig cfg = some (GoErr.wrap "" ErrInvalidEnvironment (": " ++ e.message)) ∧
      errorsIs (GoErr.wrap "" ErrInvalidEnvironment (": " ++ e.message)) ErrInvalidEnvironment = true ∧
      errorsIs (GoErr.wrap "" ErrInvalidEnvironment (": " ++ e.message)) ErrInvalidLogLevel = false ∧
      errorsIs (GoErr.wrap "" ErrInvalidEnvironment (": " ++ e.message)) ErrMissingServiceName = false) ∧
    (LogLevel.Validate cfg.Level = none →
      Environment.Validate cfg.Environment = none →
      trimSpace cfg.ServiceName = "" →
      validateConfig cfg = some ErrMissingServiceName ∧
      errorsIs ErrMissingServiceName ErrMissingServiceName = true ∧
      errorsIs ErrMissingServiceName ErrInvalidLogLevel = false ∧
      errorsIs ErrMissingServiceName ErrInvalidEnvironment = false) ∧
    (LogLevel.Validate cfg.Level = none →
      Environment.Validate cfg.Environment = none →
      trimSpace cfg.ServiceName ≠ "" →
      validateConfig cfg = none) :=
  by
  refine ⟨?_, ?_, ?_, ?_⟩
  · intro e he
    refine ⟨by simp [validateConfig, he], ?_, ?_, ?_⟩
    · simp only [ErrInvalidLogLevel, ErrInvalidEnvironment, ErrMissingServiceName,
        errorsIs_wrap_errNew]
      decide
    · simp only [ErrInvalidLogLevel, ErrInvalidEnvironment, ErrMissingServiceName,
        errorsIs_wrap_errNew]
      decide
    · simp only [ErrInvalidLogLevel, ErrInvalidEnvironment, ErrMissingServiceName,
        errorsIs_wrap_errNew]
      decide
  · intro e hl he
    refine ⟨by simp [validateConfig, hl, he], ?_, ?_, ?_⟩
    · simp only [ErrInvalidLogLevel, ErrInvalidEnvironment, ErrMissingServiceName,
        errorsIs_wrap_errNew]
      decide
    · simp only [ErrInvalidLogLevel, ErrInvalidEnvironment, ErrMissingServiceName,
        errorsIs_wrap_errNew]
      decide
    · simp only [ErrInvalidLogLevel, ErrInvalidEnvironment, ErrMissingServiceName,
        errorsIs_wrap_errNew]
      decide
  · intro hl he hs
    exact ⟨by simp [validateConfig, hl, he, hs], by decide, by decide, by decide⟩
  · intro hl he hs
    simp [validateConfig, hl, he, hs]

/-- Concrete instantiation of the C2 theorem: every branch of the claim
exercised at an explicit configuration. -/
theorem claim2_witness :
    validateConfig { Level := "TRACE", Environment := "production", ServiceName := "svc" }
        = some (GoErr.wrap "" ErrInvalidLogLevel
            (": " ++ (GoErr.wrap "" ErrInvalidValue
              ": log level must be DEBUG, INFO, WARN, or ERROR, got \x27TRACE\x27").message)) ∧
    validateConfig { Level := "INFO", Environment := "staging", ServiceName := "svc" }
        = some (GoErr.wrap "" ErrInvalidEnvironment
            (": " ++ (GoErr.wrap "" ErrInvalidValue
              ": environment must be \x27development\x27 or \x27production\x27, got \x27staging\x27").message)) ∧
    validateConfig { Level := "INFO", Environment := "production", ServiceName := "  " }
        = some ErrMissingServiceName ∧
    validateConfig { Level := "INFO", Environment := "production", ServiceName := "svc" }
        = none := by
  refine ⟨?_, ?_, ?_, ?_⟩
  · exact ((claim2_validateConfig_order
      { Level := "TRACE", Environment := "production", ServiceName := "svc" }).1
      _ (by decide)).1
  · exact ((claim2_validateConfig_order
      { Level := "INFO", Environment := "staging", ServiceName := "svc" }).2.1
      _ (by decide) (by decide)).1
  · exact ((claim2_validateConfig_order
      { Level := "INFO", Environment := "production", ServiceName := "  " }).2.2.1
      (by decide) (by decide) (by decide)).1
  · exact (claim2_validateConfig_order
      { Level := "INFO", Environment := "production", ServiceName := "svc" }).2.2.2
      (by decide) (by decide) (by decide)

/-- A concrete valid production configuration used by witnesses. -/
def prodCfg : LoggerConfig :=
  { Level := "INFO", Environment := "production", ServiceName := "svc" }

/-- The logger value `buildLogger prodCfg` constructs. -/
def prodLogger : Logger :=
  { logger :=
    { core :=
      { encoder := "json"
        encoderConfig :=
          { TimeKey := "timestamp"
            LevelKey := "level"
            NameKey := "logger"
            CallerKey := "caller"
            FunctionKey := ""
            MessageKey := "message"
            StacktraceKey := "stacktrace"
            LineEnding := "\n"
            EncodeLevel := "lowercase"
            EncodeTime := "iso8601"
            EncodeDuration := "seconds"
            EncodeCaller := "short" }
        sink := "stdout"
        level := .info }
      addCaller := true
      callerSkip := 1
      stacktraceLevel := .error
      fields := [("service", "svc")] } }

/-- Claim C1: InitGlobal is a state machine over the global handle —
already initialized yields `ErrAlreadyInitialized` with the handle
untouched; a validation failure yields the `ErrInvalidConfig`-wrapped
error with the handle unset; a construction failure propagates the
wrapped construction error with the handle unset; only full success
stores the handle, and a second sequential call (any configuration)
always fails with `ErrAlreadyInitialized` and changes nothing. -/
theorem claim1_initGlobal_state_machine (cfg cfg2 : LoggerConfig) (s : GlobalState) :
    (s.isSome = true → InitGlobal cfg s = (some ErrAlreadyInitialized, s)) ∧
    (∀ e, validateConfig cfg = some e →
      InitGlobal cfg none = (some (GoErr.wrap "" ErrInvalidConfig (": " ++ e.message)), none) ∧
      errorsIs (GoErr.wrap "" ErrInvalidConfig (": " ++ e.message)) ErrInvalidConfig = true) ∧
    (∀ e, validateConfig cfg = none → buildLogger cfg = .error e →
      InitGlobal cfg none = (some (GoErr.wrap "failed to build logger: " e ""), none)) ∧
    (∀ zl, validateConfig cfg = none → buildLogger cfg = .ok zl →
      InitGlobal cfg none = (none, some { logger := zl })) ∧
    (∀ r1 s1, InitGlobal cfg none = (r1, s1) → r1 = none →
      InitGlobal cfg2 s1 = (some ErrAlreadyInitialized, s1)) := by
  refine ⟨?_, ?_, ?_, ?_, ?_⟩
  · intro hs
    obtain ⟨l, rfl⟩ := Option.isSome_iff_exists.mp hs
    rfl
  · intro e he
    refine ⟨by simp [InitGlobal, he], ?_⟩
    simp only [ErrInvalidConfig, errorsIs_wrap_errNew]
    decide
  · intro e hv hb
    simp [InitGlobal, hv, hb]
  · intro zl hv hb
    simp [InitGlobal, hv, hb]
  · intro r1 s1 h hr
    rw [hr] at h
    rcases hv : validateConfig cfg with _ | e
    · rcases hb : buildLogger cfg with e | zl
      · simp [InitGlobal, hv, hb] at h
      · simp only [InitGlobal, hv, hb] at h
        obtain ⟨-, h2⟩ := Prod.mk.injEq .. ▸ h
        rw [← h2]
        rfl
    · simp [InitGlobal, hv] at h

/-- Concrete instantiation of the C1 theorem: a first `InitGlobal`
succeeds and stores the constructed handle, and a second call with a
different valid configuration fails with `ErrAlreadyInitialized`
leaving the handle unchanged. -/
theorem claim1_witness :
    InitGlobal prodCfg none = (none, some prodLogger) ∧
    InitGlobal { Level := "DEBUG", Environment := "development", ServiceName := "other" }
        (some prodLogger) = (some ErrAlreadyInitialized, some prodLogger) := by
  constructor
  · exact (claim1_initGlobal_state_machine prodCfg prodCfg none).2.2.2.1
      prodLogger.logger (by decide) rfl
  · exact (claim1_initGlobal_state_machine
      { Level := "DEBUG", Environment := "development", ServiceName := "other" }
      prodCfg (some prodLogger)).1 rfl

/-- Claim C3: `Get` panics exactly when the global logger is absent
(and with payload `ErrNotInitialized`); `TryGet`, whose result type has
no panic outcome, returns `(nil, ErrNotInitialized)` when uninitialized;
after a successful `InitGlobal` both return the stored handle — and since
`Get` of the unchanged state always yields that same stored handle,
repeated `Get` calls return the identical handle instance. -/
theorem claim3_get_tryGet (s : GlobalState) (cfg : LoggerConfig) :
    ((∃ e, Get s = .panicked e) ↔ s = none) ∧
    (s = none →
      Get s = .panicked ErrNotInitialized ∧ TryGet s = (none, some ErrNotInitialized)) ∧
    (∀ l, s = some l → Get s = .ok l ∧ TryGet s = (some l, none)) ∧
    ((InitGlobal cfg s).1 = none →
      ∃ l, (InitGlobal cfg s).2 = some l ∧
        Get (InitGlobal cfg s).2 = .ok l ∧
        TryGet (InitGlobal cfg s).2 = (some l, none)) := by
  refine ⟨?_, ?_, ?_, ?_⟩
  · constructor
    · rintro ⟨e, he⟩
      cases s with
      | none => rfl
      | some l => simp [Get] at he
    · rintro rfl
      exact ⟨ErrNotInitialized, rfl⟩
  · rintro rfl
    exact ⟨rfl, rfl⟩
  · rintro l rfl
    exact ⟨rfl, rfl⟩
  · intro h
    cases s with
    | some l => simp [InitGlobal] at h
    | none =>
      rcases hv : validateConfig cfg with _ | e
      · rcases hb : buildLogger cfg with e | zl
        · simp [InitGlobal, hv, hb] at h
        · refine ⟨{ logger := zl }, ?_, ?_, ?_⟩ <;> simp [InitGlobal, hv, hb, Get, TryGet]
      · simp [InitGlobal, hv] at h

/-- Concrete instantiation of the C3 theorem at the uninitialized state
and at the state produced by a successful `InitGlobal`. -/
theorem claim3_witness :
    Get none = .panicked ErrNotInitialized ∧
    TryGet none = (none, some ErrNotInitialized) ∧
    Get (InitGlobal prodCfg none).2 = .ok prodLogger ∧
    TryGet (InitGlobal prodCfg none).2 = (some prodLogger, none) := by
  have h0 := (claim3_get_tryGet none prodCfg).2.1 rfl
  have h1 := (claim3_get_tryGet none prodCfg).2.2.2 (by decide)
  obtain ⟨l, hl, hget, htry⟩ := h1
  have hl2 : l = prodLogger := by
    have : (InitGlobal prodCfg none).2 = some prodLogger := by decide
    rw [this] at hl
    exact (Option.some.injEq .. ▸ hl.symm)
  subst hl2
  exact ⟨h0.1, h0.2, hget, htry⟩

/-- Refutation of claim C4 at a concrete configuration with an invalid
log level: the error `InitGlobal` returns satisfies the is-InvalidConfig
check but fails the is-InvalidLogLevel check (and the other two shape
checks), because `InitGlobal` renders the validation cause with `%v`
rather than wrapping it with `%w`. -/
theorem claim4_counterexample :
    (validateConfig { Level := "BOGUS", Environment := "production", ServiceName := "svc" }).isSome
        = true ∧
    (InitGlobal { Level := "BOGUS", Environment := "production", ServiceName := "svc" } none).1
      = some (GoErr.wrap "" ErrInvalidConfig
          (": invalid log level: invalid configuration value: log level must be DEBUG, INFO, WARN, or ERROR, got \x27BOGUS\x27")) ∧
    errorsIs (GoErr.wrap "" ErrInvalidConfig
          (": invalid log level: invalid configuration value: log level must be DEBUG, INFO, WARN, or ERROR, got \x27BOGUS\x27"))
        ErrInvalidConfig = true ∧
    errorsIs (GoErr.wrap "" ErrInvalidConfig
          (": invalid log level: invalid configuration value: log level must be DEBUG, INFO, WARN, or ERROR, got \x27BOGUS\x27"))
        ErrInvalidLogLevel = false ∧
    errorsIs (GoErr.wrap "" ErrInvalidConfig
          (": invalid log level: invalid configuration value: log level must be DEBUG, INFO, WARN, or ERROR, got \x27BOGUS\x27"))
        ErrInvalidEnvironment = false ∧
    errorsIs (GoErr.wrap "" ErrInvalidConfig
          (": invalid log level: invalid configuration value: log level must be DEBUG, INFO, WARN, or ERROR, got \x27BOGUS\x27"))
        ErrMissingServiceName = false := by
  decide

/-- Claim C4 as amended: the shape sentinel survives the wrapping done
by `validateConfig` itself (its error is-X for the corresponding shape
sentinel), and the `InitGlobal` error is-InvalidConfig; but `InitGlobal`
flattens the validation cause to text (`%v`), so its error satisfies none
of the three shape-sentinel checks. -/
theorem claim4_wrapping_amended (cfg : LoggerConfig) (e : GoErr)
    (h : validateConfig cfg = some e) :
    (errorsIs e ErrInvalidLogLevel || errorsIs e ErrInvalidEnvironment ||
      errorsIs e ErrMissingServiceName) = true ∧
    InitGlobal cfg none = (some (GoErr.wrap "" ErrInvalidConfig (": " ++ e.message)), none) ∧
    errorsIs (GoErr.wrap "" ErrInvalidConfig (": " ++ e.message)) ErrInvalidConfig = true ∧
    errorsIs (GoErr.wrap "" ErrInvalidConfig (": " ++ e.message)) ErrInvalidLogLevel = false ∧
    errorsIs (GoErr.wrap "" ErrInvalidConfig (": " ++ e.message)) ErrInvalidEnvironment = false ∧
    errorsIs (GoErr.wrap "" ErrInvalidConfig (": " ++ e.message)) ErrMissingServiceName = false := by
  refine ⟨?_, by simp [InitGlobal, h], ?_, ?_, ?_, ?_⟩
  · unfold validateConfig at h
    rcases hl : LogLevel.Validate cfg.Level with _ | e1 <;> rw [hl] at h
    · rcases he : Environment.Validate cfg.Environment with _ | e2 <;> rw [he] at h
      · by_cases hs : trimSpace cfg.ServiceName == ""
        · rw [if_pos hs] at h
          obtain ⟨rfl⟩ := Option.some.injEq .. ▸ h.symm
          decide
        · rw [if_neg hs] at h
          exact absurd h (by simp)
      · obtain ⟨rfl⟩ := Option.some.injEq .. ▸ h.symm
        simp only [ErrInvalidLogLevel, ErrInvalidEnvironment, ErrMissingServiceName,
          errorsIs_wrap_errNew]
        decide
    · obtain ⟨rfl⟩ := Option.some.injEq .. ▸ h.symm
      simp only [ErrInvalidLogLevel, ErrInvalidEnvironment, ErrMissingServiceName,
        errorsIs_wrap_errNew]
      decide
  · simp only [ErrInvalidConfig, ErrInvalidLogLevel, ErrInvalidEnvironment,
      ErrMissingServiceName, errorsIs_wrap_errNew]
    decide
  · simp only [ErrInvalidConfig, ErrInvalidLogLevel, ErrInvalidEnvironment,
      ErrMissingServiceName, errorsIs_wrap_errNew]
    decide
  · simp only [ErrInvalidConfig, ErrInvalidLogLevel, ErrInvalidEnvironment,
      ErrMissingServiceName, errorsIs_wrap_errNew]
    decide
  · simp only [ErrInvalidConfig, ErrInvalidLogLevel, ErrInvalidEnvironment,
      ErrMissingServiceName, errorsIs_wrap_errNew]
    decide

/-- Concrete instantiation of the amended C4 theorem at a configuration
with an invalid log level. -/
theorem claim4_witness :
    InitGlobal { Level := "BOGUS", Environment := "production", ServiceName := "svc" } none
      = (some (GoErr.wrap "" ErrInvalidConfig
          (": " ++ (GoErr.wrap "" ErrInvalidLogLevel
            (": " ++ (GoErr.wrap "" ErrInvalidValue
              ": log level must be DEBUG, INFO, WARN, or ERROR, got \x27BOGUS\x27").message)).message)),
          none) :=
  (claim4_wrapping_amended
    { Level := "BOGUS", Environment := "production", ServiceName := "svc" }
    (GoErr.wrap "" ErrInvalidLogLevel
      (": " ++ (GoErr.wrap "" ErrInvalidValue
        ": log level must be DEBUG, INFO, WARN, or ERROR, got \x27BOGUS\x27").message))
    (by decide)).2.1

/-- Claim C5: the environment loader treats `LOG_LEVEL`, `APP_ENV` and
`APP_NAME` as mandatory with no default fallback, failing with the
`ErrMissingRequiredEnvVar` kind naming exactly the first missing variable
in the order level, environment, name; otherwise it uppercases the level,
lowercases the environment, keeps the service name unmodified, and fully
validates the assembled configuration before returning it. -/
theorem claim5_loadLoggerConfig (env : Env) :
    (getenv env "LOG_LEVEL" = "" →
      loadLoggerConfig env = .error (GoErr.wrap "" ErrMissingRequiredEnvVar ": LOG_LEVEL") ∧
      errorsIs (GoErr.wrap "" ErrMissingRequiredEnvVar ": LOG_LEVEL")
        ErrMissingRequiredEnvVar = true) ∧
    (getenv env "LOG_LEVEL" ≠ "" → getenv env "APP_ENV" = "" →
      loadLoggerConfig env = .error (GoErr.wrap "" ErrMissingRequiredEnvVar ": APP_ENV") ∧
      errorsIs (GoErr.wrap "" ErrMissingRequiredEnvVar ": APP_ENV")
        ErrMissingRequiredEnvVar = true) ∧
    (getenv env "LOG_LEVEL" ≠ "" → getenv env "APP_ENV" ≠ "" →
      getenv env "APP_NAME" = "" →
      loadLoggerConfig env = .error (GoErr.wrap "" ErrMissingRequiredEnvVar ": APP_NAME") ∧
      errorsIs (GoErr.wrap "" ErrMissingRequiredEnvVar ": APP_NAME")
        ErrMissingRequiredEnvVar = true) ∧
    (getenv env "LOG_LEVEL" ≠ "" → getenv env "APP_ENV" ≠ "" →
      getenv env "APP_NAME" ≠ "" →
      (∀ e, LoggerConfig.Validate
          { Level := toUpper (getenv env "LOG_LEVEL")
            Environment := toLower (getenv env "APP_ENV")
            ServiceName := getenv env "APP_NAME" } = some e →
        loadLoggerConfig env = .error e) ∧
      (LoggerConfig.Validate
          { Level := toUpper (getenv env "LOG_LEVEL")
            Environment := toLower (getenv env "APP_ENV")
            ServiceName := getenv env "APP_NAME" } = none →
        loadLoggerConfig env = .ok
          { Level := toUpper (getenv env "LOG_LEVEL")
            Environment := toLower (getenv env "APP_ENV")
            ServiceName := getenv env "APP_NAME" })) := by
  refine ⟨?_, ?_, ?_, ?_⟩
  · intro h1
    exact ⟨by simp [loadLoggerConfig, h1], by decide⟩
  · intro h1 h2
    exact ⟨by simp [loadLoggerConfig, beq_iff_eq, h1, h2], by decide⟩
  · intro h1 h2 h3
    exact ⟨by simp [loadLoggerConfig, beq_iff_eq, h1, h2, h3], by decide⟩
  · intro h1 h2 h3
    constructor
    · intro e he
      simp [loadLoggerConfig, beq_iff_eq, h1, h2, h3, he]
    · intro he
      simp [loadLoggerConfig, beq_iff_eq, h1, h2, h3, he]

/-- An environment with every variable unset. -/
def envEmpty : Env := fun _ => none

/-- An environment with the three variables set to mixed-case values. -/
def envFull : Env := fun k =>
  if k = "LOG_LEVEL" then some "debug"
  else if k = "APP_ENV" then some "PRODUCTION"
  else if k = "APP_NAME" then some "svc"
  else none

/-- Concrete instantiation of the C5 theorem: with no variables set the
loader fails naming `LOG_LEVEL`; with `LOG_LEVEL=debug`,
`APP_ENV=PRODUCTION`, `APP_NAME=svc` it returns the normalized validated
configuration. -/
theorem claim5_witness :
    loadLoggerConfig envEmpty
      = .error (GoErr.wrap "" ErrMissingRequiredEnvVar ": LOG_LEVEL") ∧
    loadLoggerConfig envFull
      = .ok { Level := "DEBUG", Environment := "production", ServiceName := "svc" } := by
  constructor
  · exact ((claim5_loadLoggerConfig envEmpty).1 rfl).1
  · exact ((claim5_loadLoggerConfig envFull).2.2.2 (by decide) (by decide) (by decide)).2
      (by decide)

/-- Claim C6: when the raw `APP_ENV` value equals "production"
case-insensitively, the `.env` file is never consulted — `loadEnvFile`
returns the process environment untouched and `Load` gives the same
result for every possible file, absent or not; in every other case an
absent file is not an error (the loader proceeds with the process
environment as-is), and a present file is merged without overriding
already-set variables. -/
theorem claim6_production_isolation (env : Env) :
    (toLower (getenv env "APP_ENV") = "production" →
      (∀ file, loadEnvFile env file = .ok env) ∧
      (∀ f1 f2, Load env f1 = Load env f2)) ∧
    (toLower (getenv env "APP_ENV") ≠ "production" →
      loadEnvFile env none = .ok env ∧
      (∀ kvs, loadEnvFile env (some kvs) = .ok (godotenvApply env kvs))) := by
  constructor
  · intro h
    have hfile : ∀ file, loadEnvFile env file = .ok env := by
      intro file
      simp [loadEnvFile, beq_iff_eq, h]
    refine ⟨hfile, ?_⟩
    intro f1 f2
    simp [Load, hfile f1, hfile f2]
  · intro h
    constructor
    · simp [loadEnvFile, godotenvLoad, beq_iff_eq, h]
    · intro kvs
      simp [loadEnvFile, godotenvLoad, beq_iff_eq, h]

/-- An environment whose raw `APP_ENV` is the mixed-case "Production". -/
def envProdRaw : Env := fun k => if k = "APP_ENV" then some "Production" else none

/-- An environment whose `APP_ENV` is "development". -/
def envDevRaw : Env := fun k => if k = "APP_ENV" then some "development" else none

/-- Concrete instantiation of the C6 theorem: with raw
`APP_ENV=Production`, the result of `Load` is the same for the absent
file and for a file that tries to inject `LOG_LEVEL` and `APP_NAME`; with
`APP_ENV=development`, the absent file is not an error. -/
theorem claim6_witness :
    Load envProdRaw none
      = Load envProdRaw (some [("LOG_LEVEL", "DEBUG"), ("APP_NAME", "injected")]) ∧
    loadEnvFile envDevRaw none = .ok envDevRaw := by
  constructor
  · exact ((claim6_production_isolation envProdRaw).1 (by decide)).2
      none (some [("LOG_LEVEL", "DEBUG"), ("APP_NAME", "injected")])
  · exact ((claim6_production_isolation envDevRaw).2 (by decide)).1

/-- Shared helper: whenever the log level is one of the four canonical
values, `buildLogger` succeeds and produces the core described by the
source — canonical field keys, stdout sink, caller enrichment, stack
traces at error level, the single permanent `service` field, and the
encoder selected by environment. -/
theorem buildLogger_spec (cfg : LoggerConfig)
    (hl : LogLevel.Validate cfg.Level = none) :
    ∃ zl, buildLogger cfg = .ok zl ∧
      zl.fields = [("service", cfg.ServiceName)] ∧
      zl.core.sink = "stdout" ∧
      zl.addCaller = true ∧
      zl.callerSkip = 1 ∧
      zl.stacktraceLevel = .error ∧
      zl.core.encoderConfig.TimeKey = "timestamp" ∧
      zl.core.encoderConfig.LevelKey = "level" ∧
      zl.core.encoderConfig.MessageKey = "message" ∧
      zl.core.encoderConfig.StacktraceKey = "stacktrace" ∧
      (cfg.Environment = EnvProduction →
        zl.core.encoder = "json" ∧ zl.core.encoderConfig.EncodeLevel = "lowercase") ∧
      (cfg.Environment ≠ EnvProduction →
        zl.core.encoder = "console" ∧
        zl.core.encoderConfig.EncodeLevel = "capitalColor") := by
  obtain ⟨lv, envv, name⟩ := cfg
  have hl2 := (logLevel_validate_eq_none_iff lv).mp hl
  obtain ⟨zlev, hres⟩ : ∃ zlev, buildLoggerLevel lv = .ok zlev := by
    rcases hl2 with rfl | rfl | rfl | rfl <;> exact ⟨_, rfl⟩
  cases hbeq : envv == EnvProduction with
  | true =>
    have hp : envv = EnvProduction := by simpa using hbeq
    subst hp
    have hb : buildLogger { Level := lv, Environment := EnvProduction, ServiceName := name }
        = .ok
          { core :=
            { encoder := "json"
              encoderConfig :=
                { TimeKey := "timestamp"
                  LevelKey := "level"
                  NameKey := "logger"
                  CallerKey := "caller"
                  FunctionKey := ""
                  MessageKey := "message"
                  StacktraceKey := "stacktrace"
                  LineEnding := "\n"
                  EncodeLevel := "lowercase"
                  EncodeTime := "iso8601"
                  EncodeDuration := "seconds"
                  EncodeCaller := "short" }
              sink := "stdout"
              level := zlev }
            addCaller := true
            callerSkip := 1
            stacktraceLevel := .error
            fields := [("service", name)] } := by
      simp [buildLogger, hres]
    exact ⟨_, hb, rfl, rfl, rfl, rfl, rfl, rfl, rfl, rfl, rfl,
      fun _ => ⟨rfl, rfl⟩, fun hc => absurd rfl hc⟩
  | false =>
    have hp : envv ≠ EnvProduction := by simpa using hbeq
    have hb : buildLogger { Level := lv, Environment := envv, ServiceName := name }
        = .ok
          { core :=
            { encoder := "console"
              encoderConfig :=
                { TimeKey := "timestamp"
                  LevelKey := "level"
                  NameKey := "logger"
                  CallerKey := "caller"
                  FunctionKey := ""
                  MessageKey := "message"
                  StacktraceKey := "stacktrace"
                  LineEnding := "\n"
                  EncodeLevel := "capitalColor"
                  EncodeTime := "iso8601"
                  EncodeDuration := "seconds"
                  EncodeCaller := "short" }
              sink := "stdout"
              level := zlev }
            addCaller := true
            callerSkip := 1
            stacktraceLevel := .error
            fields := [("service", name)] } := by
      simp [buildLogger, hres, hbeq]
    exact ⟨_, hb, rfl, rfl, rfl, rfl, rfl, rfl, rfl, rfl, rfl,
      fun hc => absurd hc hp, fun _ => ⟨rfl, rfl⟩⟩

/-- The zap logger `buildLogger` constructs for a valid development
configuration with service name "svc". -/
def devZapLogger : ZapLogger :=
  { core :=
    { encoder := "console"
      encoderConfig :=
        { TimeKey := "timestamp"
          LevelKey := "level"
          NameKey := "logger"
          CallerKey := "caller"
          FunctionKey := ""
          MessageKey := "message"
          StacktraceKey := "stacktrace"
          LineEnding := "\n"
          EncodeLevel := "capitalColor"
          EncodeTime := "iso8601"
          EncodeDuration := "seconds"
          EncodeCaller := "short" }
      sink := "stdout"
      level := .info }
    addCaller := true
    callerSkip := 1
    stacktraceLevel := .error
    fields := [("service", "svc")] }

/-- Refutation of claim C7 at a concrete valid development
configuration: the console encoder keeps the canonical field keys
(`timestamp`/`level`/`message`), not the short `T`/`L`/`M` schema the
claim states, and in both development and production only the `service`
field is permanently attached — the deployment-environment string is
not. -/
theorem claim7_counterexample :
    buildLogger { Level := "INFO", Environment := "development", ServiceName := "svc" }
      = .ok devZapLogger ∧
    (devZapLogger.core.encoderConfig.TimeKey == "T") = false ∧
    (devZapLogger.core.encoderConfig.LevelKey == "L") = false ∧
    (devZapLogger.core.encoderConfig.MessageKey == "M") = false ∧
    devZapLogger.core.encoder = "console" ∧
    devZapLogger.core.encoderConfig.TimeKey = "timestamp" ∧
    devZapLogger.fields = [("service", "svc")] ∧
    (devZapLogger.fields == [("service", "svc"), ("environment", "development")]) = false ∧
    buildLogger prodCfg = .ok prodLogger.logger ∧
    prodLogger.logger.fields = [("service", "svc")] ∧
    (prodLogger.logger.fields == [("service", "svc"), ("environment", "production")]) = false := by
  refine ⟨rfl, ?_, ?_, ?_, rfl, rfl, rfl, ?_, rfl, rfl, ?_⟩ <;> decide

/-- Claim C7 as amended: construction selects the encoding by
environment — production yields the JSON encoding, development the
colorized console encoding — but both use the same canonical field keys
time→"timestamp", level→"level", message→"message", stack
trace→"stacktrace" (development only switches the level encoder to the
colorized one), and exactly one permanent field is attached: the service
name; the deployment-environment string is not attached. -/
theorem claim7_buildLogger_amended (cfg : LoggerConfig)
    (h : validateConfig cfg = none) :
    ∃ zl, buildLogger cfg = .ok zl ∧
      zl.fields = [("service", cfg.ServiceName)] ∧
      zl.core.encoderConfig.TimeKey = "timestamp" ∧
      zl.core.encoderConfig.LevelKey = "level" ∧
      zl.core.encoderConfig.MessageKey = "message" ∧
      zl.core.encoderConfig.StacktraceKey = "stacktrace" ∧
      (cfg.Environment = EnvProduction →
        zl.core.encoder = "json" ∧ zl.core.encoderConfig.EncodeLevel = "lowercase") ∧
      (cfg.Environment ≠ EnvProduction →
        zl.core.encoder = "console" ∧
        zl.core.encoderConfig.EncodeLevel = "capitalColor") := by
  obtain ⟨hl, -, -⟩ := (validateConfig_eq_none_iff cfg).mp h
  obtain ⟨zl, h1, h2, -, -, -, -, h3, h4, h5, h6, h7, h8⟩ := buildLogger_spec cfg hl
  exact ⟨zl, h1, h2, h3, h4, h5, h6, h7, h8⟩

/-- Concrete instantiation of the amended C7 theorem at the valid
production configuration. -/
theorem claim7_witness :
    buildLogger prodCfg = .ok prodLogger.logger ∧
    prodLogger.logger.fields = [("service", "svc")] ∧
    prodLogger.logger.core.encoder = "json" ∧
    prodLogger.logger.core.encoderConfig.EncodeLevel = "lowercase" := by
  obtain ⟨zl, hok, hf, -, -, -, -, hprod, -⟩ :=
    claim7_buildLogger_amended prodCfg (by decide)
  have hz : zl = prodLogger.logger := by
    have h2 : (Except.ok zl : Except GoErr ZapLogger) = .ok prodLogger.logger := by
      rw [← hok]
      rfl
    exact (Except.ok.injEq .. ▸ h2)
  subst hz
  obtain ⟨he1, he2⟩ := hprod rfl
  exact ⟨hok, hf, he1, he2⟩

/-- Claim C8: `Logger.Sync` returns nil when the underlying flush
succeeds or fails with one of the three ignorable console-descriptor
causes (EINVAL, ENOTTY, EBADF, tested through the error chain); every
other flush failure is returned wrapped in the `ErrSyncFailed` kind, and
an ignorable cause is never surfaced at all. -/
theorem claim8_sync (l : Logger) (r : Option GoErr) :
    (r = none → Logger.Sync l r = none) ∧
    (∀ e, r = some e → isIgnorableSyncError e = true → Logger.Sync l r = none) ∧
    (∀ e, r = some e → isIgnorableSyncError e = false →
      Logger.Sync l r = some (GoErr.wrap "" ErrSyncFailed (": " ++ e.message)) ∧
      errorsIs (GoErr.wrap "" ErrSyncFailed (": " ++ e.message)) ErrSyncFailed = true) ∧
    (∀ e e2, r = some e → Logger.Sync l r = some e2 → isIgnorableSyncError e = false) := by
  refine ⟨?_, ?_, ?_, ?_⟩
  · rintro rfl
    rfl
  · rintro e rfl hi
    simp [Logger.Sync, hi]
  · rintro e rfl hi
    refine ⟨by simp [Logger.Sync, hi], ?_⟩
    simp only [ErrSyncFailed, errorsIs_wrap_errNew]
    decide
  · rintro e e2 rfl hs
    cases hi : isIgnorableSyncError e with
    | false => rfl
    | true => simp [Logger.Sync, hi] at hs

/-- Concrete instantiation of the C8 theorem: successful flush, flush
failing with EINVAL (ignored), and flush failing with an unrelated cause
(wrapped as `ErrSyncFailed`). -/
theorem claim8_witness :
    Logger.Sync prodLogger none = none ∧
    Logger.Sync prodLogger (some EINVAL) = none ∧
    Logger.Sync prodLogger (some (GoErr.errNew "disk full"))
      = some (GoErr.wrap "" ErrSyncFailed ": disk full") := by
  refine ⟨?_, ?_, ?_⟩
  · exact (claim8_sync prodLogger none).1 rfl
  · exact (claim8_sync prodLogger (some EINVAL)).2.1 EINVAL rfl (by decide)
  · exact ((claim8_sync prodLogger (some (GoErr.errNew "disk full"))).2.2.1
      (GoErr.errNew "disk full") rfl (by decide)).1

/-- Shared helper: once the global handle is set, every further
`InitGlobal` in a serialized run fails with `ErrAlreadyInitialized` and
leaves the handle unchanged. -/
theorem runInits_initialized (cfgs : List LoggerConfig) (l : Logger) :
    runInits cfgs (some l)
      = (List.replicate cfgs.length (some ErrAlreadyInitialized), some l) := by
  induction cfgs with
  | nil => rfl
  | cons c rest ih => simp [runInits, InitGlobal, ih, List.replicate_succ]

/-- Shared helper: counting occurrences in a replicated list. -/
theorem countP_replicate {α : Type} (p : α → Bool) (a : α) (n : Nat) :
    (List.replicate n a).countP p = if p a then n else 0 := by
  induction n with
  | zero => simp
  | succ n ih =>
    rw [List.replicate_succ, List.countP_cons, ih]
    by_cases h : p a = true <;> simp [h]

/-- Claim C9: for every nonempty collection of valid configurations and
every serialization order (each `InitGlobal` runs atomically because the
source holds the exclusive lock `mu` across its whole
check-validate-construct-store body, so every concurrent schedule of N
calls executes as `runInits` on some permutation), exactly one call
succeeds, the other N−1 each receive `ErrAlreadyInitialized`, and the
final state is initialized. -/
theorem claim9_concurrent_init (cfgs : List LoggerConfig)
    (hv : ∀ cfg ∈ cfgs, validateConfig cfg = none) (hne : cfgs ≠ []) :
    (runInits cfgs none).1.countP (fun r => r.isNone) = 1 ∧
    (runInits cfgs none).1.countP (fun r => r == some ErrAlreadyInitialized)
      = cfgs.length - 1 ∧
    (runInits cfgs none).2.isSome = true := by
  cases cfgs with
  | nil => exact absurd rfl hne
  | cons c rest =>
    have hvc : validateConfig c = none := hv c (List.mem_cons_self c rest)
    obtain ⟨hl, -, -⟩ := (validateConfig_eq_none_iff c).mp hvc
    obtain ⟨zl, hb, -⟩ := buildLogger_spec c hl
    have hstep : InitGlobal c none = (none, some { logger := zl }) := by
      simp [InitGlobal, hvc, hb]
    have hrun : runInits (c :: rest) none
        = (none :: List.replicate rest.length (some ErrAlreadyInitialized),
            some { logger := zl }) := by
      simp [runInits, hstep, runInits_initialized]
    rw [hrun]
    refine ⟨?_, ?_, rfl⟩
    · simp [List.countP_cons, countP_replicate]
    · simp [List.countP_cons, countP_replicate]

/-- Concrete instantiation of the C9 theorem: three serialized
`InitGlobal` calls with valid configurations produce exactly one success
and two `ErrAlreadyInitialized` results. -/
theorem claim9_witness :
    (runInits [prodCfg,
        { Level := "DEBUG", Environment := "development", ServiceName := "w" },
        prodCfg] none).1.countP (fun r => r.isNone) = 1 ∧
    (runInits [prodCfg,
        { Level := "DEBUG", Environment := "development", ServiceName := "w" },
        prodCfg] none).1.countP (fun r => r == some ErrAlreadyInitialized) = 2 ∧
    (runInits [prodCfg,
        { Level := "DEBUG", Environment := "development", ServiceName := "w" },
        prodCfg] none).2.isSome = true := by
  exact claim9_concurrent_init
    [prodCfg, { Level := "DEBUG", Environment := "development", ServiceName := "w" }, prodCfg]
    (by decide) (by decide)

/-- Claim C10: `ReplaceGlobal` stores any handle, nil included, with no
validation or state restriction; after `ReplaceGlobal(nil)` the lifecycle
is back to uninitialized — `Get` panics, `TryGet` returns the
`ErrNotInitialized` kind with a nil handle, and a further `InitGlobal`
with a valid configuration succeeds again, so initialization is not
limited to at most once per process through the public interface. -/
theorem claim10_replaceGlobal (s : GlobalState) (l : Logger) (cfg : LoggerConfig)
    (hv : validateConfig cfg = none) :
    ReplaceGlobal none s = none ∧
    ReplaceGlobal (some l) s = some l ∧
    Get (ReplaceGlobal none s) = .panicked ErrNotInitialized ∧
    TryGet (ReplaceGlobal none s) = (none, some ErrNotInitialized) ∧
    (InitGlobal cfg (ReplaceGlobal none s)).1 = none ∧
    ((InitGlobal cfg (ReplaceGlobal none s)).2).isSome = true := by
  obtain ⟨hl, -, -⟩ := (validateConfig_eq_none_iff cfg).mp hv
  obtain ⟨zl, hb, -⟩ := buildLogger_spec cfg hl
  refine ⟨rfl, rfl, rfl, rfl, ?_, ?_⟩
  · simp [ReplaceGlobal, InitGlobal, hv, hb]
  · simp [ReplaceGlobal, InitGlobal, hv, hb]

/-- Concrete instantiation of the C10 theorem: starting from an
initialized state, `ReplaceGlobal(nil)` resets the lifecycle and a new
`InitGlobal` with the valid production configuration succeeds. -/
theorem claim10_witness :
    ReplaceGlobal none (some prodLogger) = none ∧
    Get (ReplaceGlobal none (some prodLogger)) = .panicked ErrNotInitialized ∧
    TryGet (ReplaceGlobal none (some prodLogger)) = (none, some ErrNotInitialized) ∧
    (InitGlobal prodCfg (ReplaceGlobal none (some prodLogger))).1 = none := by
  obtain ⟨h1, -, h3, h4, h5, -⟩ :=
    claim10_replaceGlobal (some prodLogger) prodLogger prodCfg (by decide)
  exact ⟨h1, h3, h4, h5⟩

end Gologger
